import Mathlib

/-!
Shallow embedding of the rdf4j-python client library core, as needed to check
the frozen claims: the transaction state machine
(`rdf4j_python/_driver/_async_transaction.py`), the SPARQL query-type detector
and query dispatch (`rdf4j_python/_driver/_async_repository.py`), the term
serializer (`rdf4j_python/query/_term.py`), the graph-pattern and query
builders (`rdf4j_python/query/_pattern.py`, `rdf4j_python/query/_builder.py`)
and the query-type-mismatch exception
(`rdf4j_python/exception/repo_exception.py`).

Conventions of the embedding:
 - Python strings are Lean `String`s (lists of characters); scanning code works
   on `List Char` and is wrapped back to `String` at the interface.
 - Fallible Python code (a `raise`) becomes `Except` or an explicit
   `Option`-typed error slot; an HTTP round-trip is modelled by passing the
   server's `HttpResponse` as an argument, and each transaction step reports
   whether the HTTP call was actually issued (the source raises state errors
   before any I/O).
 - Python truthiness of `Optional[str]` values (`if term.language:`) is
   modelled explicitly by `pyTruthyOptStr`.
-/

/-- Python truthiness of an `Optional[str]`: `None` and `""` are falsy. -/
def pyTruthyOptStr : Option String → Bool
  | none => false
  | some s => !(s == "")

/-- ASCII fragment of Python's `str` whitespace / regex `\s` class. -/
def pyIsSpace (c : Char) : Bool :=
  c == ' ' || c == '\t' || c == '\n' || c == '\r' || c == '\x0b' || c == '\x0c'

/-- ASCII fragment of Python's regex `\w` class. -/
def pyIsWord (c : Char) : Bool :=
  c.isAlphanum || c == '_'

/-! ## Transaction state machine (`_async_transaction.py`) -/

/-- `TransactionState` enum. -/
inductive TransactionState
  | pending
  | active
  | committed
  | rolled_back
deriving DecidableEq

/-- The `.value` strings of the `TransactionState` enum members. -/
def TransactionState.value : TransactionState → String
  | .pending => "pending"
  | .active => "active"
  | .committed => "committed"
  | .rolled_back => "rolled_back"

/-- An HTTP response as observed by the transaction methods: status code,
the `Location` header (`none` when absent) and the body text. -/
structure HttpResponse where
  status_code : Nat
  location : Option String
  text : String
deriving DecidableEq

/-- Client-side state of `AsyncTransaction`: the fields assigned in
`AsyncTransaction.__init__` that the methods read and write.  The HTTP client
object itself is the abstract collaborator and is not part of the state. -/
structure AsyncTransaction where
  repository_id : String
  transaction_id : Option String
  isolation_level : Option String
  state : TransactionState
deriving DecidableEq

/-- A fresh transaction, as produced by `AsyncTransaction.__init__`. -/
def AsyncTransaction.init (repository_id : String) (isolation_level : Option String) :
    AsyncTransaction :=
  { repository_id := repository_id
    transaction_id := none
    isolation_level := isolation_level
    state := TransactionState.pending }

/-- The two error classes raised by transaction methods:
`TransactionStateError` (raised before any I/O) and `TransactionError`. -/
inductive TxnError
  | transactionStateError (msg : String)
  | transactionError (msg : String)
deriving DecidableEq

/-- Recognizer for the `TransactionStateError` kind. -/
def TxnError.isStateError : TxnError → Bool
  | .transactionStateError _ => true
  | .transactionError _ => false

/-- Outcome of one transaction method call: the post-call transaction object,
the exception raised (if any), and whether an HTTP request was issued before
the method returned or raised. -/
structure TxnStep where
  txn : AsyncTransaction
  error : Option TxnError
  httpCalled : Bool
deriving DecidableEq

/-- Python `location.rstrip("/")`. -/
def rstripSlash (s : String) : String :=
  String.mk ((s.data.reverse.dropWhile (fun c => c == '/')).reverse)

/-- Python `location.rstrip("/").split("/")[-1]`: the last path segment. -/
def lastPathSegment (s : String) : String :=
  ((rstripSlash s).splitOn ("/")).getLastD ("")

/-- `AsyncTransaction.begin`: legal only in PENDING; issues a POST; a status
other than 201 or a missing/empty `Location` header is a fatal
`TransactionError`; on success stores the last path segment of `Location` as
the transaction id and moves to ACTIVE. -/
def AsyncTransaction.begin (t : AsyncTransaction) (resp : HttpResponse) : TxnStep :=
  if t.state ≠ TransactionState.pending then
    { txn := t
      error := some (TxnError.transactionStateError
        ("Cannot begin transaction: already in state " ++ t.state.value))
      httpCalled := false }
  else if resp.status_code ≠ 201 then
    { txn := t
      error := some (TxnError.transactionError
        ("Failed to start transaction: " ++ toString resp.status_code ++ " - " ++ resp.text))
      httpCalled := true }
  else if !(pyTruthyOptStr resp.location) then
    { txn := t
      error := some (TxnError.transactionError
        ("Server did not return transaction ID in Location header"))
      httpCalled := true }
  else
    { txn := { t with
        transaction_id := some (lastPathSegment (resp.location.getD ("")))
        state := TransactionState.active }
      error := none
      httpCalled := true }

/-- `AsyncTransaction.commit`: legal only in ACTIVE; issues a PUT with
`action=COMMIT`; success statuses are 200 and 204; on success moves to
COMMITTED, otherwise raises leaving the object untouched. -/
def AsyncTransaction.commit (t : AsyncTransaction) (resp : HttpResponse) : TxnStep :=
  if t.state ≠ TransactionState.active then
    { txn := t
      error := some (TxnError.transactionStateError
        ("Cannot commit transaction: in state " ++ t.state.value))
      httpCalled := false }
  else if resp.status_code ≠ 200 ∧ resp.status_code ≠ 204 then
    { txn := t
      error := some (TxnError.transactionError
        ("Failed to commit transaction: " ++ toString resp.status_code ++ " - " ++ resp.text))
      httpCalled := true }
  else
    { txn := { t with state := TransactionState.committed }
      error := none
      httpCalled := true }

/-- `AsyncTransaction.rollback`: legal only in ACTIVE; issues a DELETE;
success statuses are 200 and 204; on success moves to ROLLED_BACK. -/
def AsyncTransaction.rollback (t : AsyncTransaction) (resp : HttpResponse) : TxnStep :=
  if t.state ≠ TransactionState.active then
    { txn := t
      error := some (TxnError.transactionStateError
        ("Cannot rollback transaction: in state " ++ t.state.value))
      httpCalled := false }
  else if resp.status_code ≠ 200 ∧ resp.status_code ≠ 204 then
    { txn := t
      error := some (TxnError.transactionError
        ("Failed to rollback transaction: " ++ toString resp.status_code ++ " - " ++ resp.text))
      httpCalled := true }
  else
    { txn := { t with state := TransactionState.rolled_back }
      error := none
      httpCalled := true }

/-- `AsyncTransaction.add_statements`: `_ensure_active`, then a PUT with
`action=ADD`; success statuses are 200 and 204; the transaction object itself
is never modified (the statements only shape the request body, which the
server response abstracts). -/
def AsyncTransaction.add_statements (t : AsyncTransaction) (resp : HttpResponse) : TxnStep :=
  if t.state ≠ TransactionState.active then
    { txn := t
      error := some (TxnError.transactionStateError
        ("Cannot perform operation: transaction in state " ++ t.state.value))
      httpCalled := false }
  else if resp.status_code ≠ 200 ∧ resp.status_code ≠ 204 then
    { txn := t
      error := some (TxnError.transactionError
        ("Failed to add statements: " ++ toString resp.status_code ++ " - " ++ resp.text))
      httpCalled := true }
  else
    { txn := t, error := none, httpCalled := true }

/-- `AsyncTransaction.delete_statements`: same shape as `add_statements`
with `action=DELETE`. -/
def AsyncTransaction.delete_statements (t : AsyncTransaction) (resp : HttpResponse) : TxnStep :=
  if t.state ≠ TransactionState.active then
    { txn := t
      error := some (TxnError.transactionStateError
        ("Cannot perform operation: transaction in state " ++ t.state.value))
      httpCalled := false }
  else if resp.status_code ≠ 200 ∧ resp.status_code ≠ 204 then
    { txn := t
      error := some (TxnError.transactionError
        ("Failed to delete statements: " ++ toString resp.status_code ++ " - " ++ resp.text))
      httpCalled := true }
  else
    { txn := t, error := none, httpCalled := true }

/-- `AsyncTransaction.update`: same shape with `action=UPDATE` and a
SPARQL-update body. -/
def AsyncTransaction.update (t : AsyncTransaction) (resp : HttpResponse) : TxnStep :=
  if t.state ≠ TransactionState.active then
    { txn := t
      error := some (TxnError.transactionStateError
        ("Cannot perform operation: transaction in state " ++ t.state.value))
      httpCalled := false }
  else if resp.status_code ≠ 200 ∧ resp.status_code ≠ 204 then
    { txn := t
      error := some (TxnError.transactionError
        ("Failed to execute update: " ++ toString resp.status_code ++ " - " ++ resp.text))
      httpCalled := true }
  else
    { txn := t, error := none, httpCalled := true }

/-- `AsyncTransaction.__aenter__` simply calls `begin()`. -/
def AsyncTransaction.aenter (t : AsyncTransaction) (resp : HttpResponse) : TxnStep :=
  t.begin resp

/-- `AsyncTransaction.__aexit__`: a no-op when the transaction is no longer
ACTIVE, otherwise `rollback()` if an exception is in flight, else
`commit()`. -/
def AsyncTransaction.aexit (t : AsyncTransaction) (excInFlight : Bool)
    (resp : HttpResponse) : TxnStep :=
  if t.state ≠ TransactionState.active then
    { txn := t, error := none, httpCalled := false }
  else if excInFlight then
    t.rollback resp
  else
    t.commit resp

/-- The six public methods of the state machine, for transition statements. -/
inductive TxnMethod
  | mBegin
  | mCommit
  | mRollback
  | mAddStatements
  | mDeleteStatements
  | mUpdate
deriving DecidableEq

/-- One step of the state machine: dispatch a method against a response. -/
def txnStep (m : TxnMethod) (t : AsyncTransaction) (resp : HttpResponse) : TxnStep :=
  match m with
  | .mBegin => t.begin resp
  | .mCommit => t.commit resp
  | .mRollback => t.rollback resp
  | .mAddStatements => t.add_statements resp
  | .mDeleteStatements => t.delete_statements resp
  | .mUpdate => t.update resp

/-- Run a sequence of method calls, threading the transaction object. -/
def runTxnSeq : AsyncTransaction → List (TxnMethod × HttpResponse) → AsyncTransaction
  | t, [] => t
  | t, (m, r) :: rest => runTxnSeq (txnStep m t r).txn rest

/-- Claim C1: `begin()` succeeds only from PENDING and raises a
transaction-state error in any other state; `commit()`, `rollback()`,
`add_statements()`, `delete_statements()` and `update()` raise a
transaction-state error unless the state is ACTIVE; the only reachable
transitions are PENDING→ACTIVE, ACTIVE→COMMITTED and ACTIVE→ROLLED_BACK, and
no transition leaves a terminal state. -/
theorem C1_transaction_state_machine :
    (∀ (t : AsyncTransaction) (resp : HttpResponse),
        t.state ≠ TransactionState.pending →
          (t.begin resp).txn = t ∧ (t.begin resp).error.any TxnError.isStateError)
  ∧ (∀ (m : TxnMethod) (t : AsyncTransaction) (resp : HttpResponse),
        m ≠ TxnMethod.mBegin → t.state ≠ TransactionState.active →
          (txnStep m t resp).txn = t ∧ (txnStep m t resp).error.any TxnError.isStateError)
  ∧ (∀ (m : TxnMethod) (t : AsyncTransaction) (resp : HttpResponse),
        (txnStep m t resp).txn.state = t.state
        ∨ (t.state = TransactionState.pending ∧ m = TxnMethod.mBegin ∧
            (txnStep m t resp).txn.state = TransactionState.active)
        ∨ (t.state = TransactionState.active ∧ m = TxnMethod.mCommit ∧
            (txnStep m t resp).txn.state = TransactionState.committed)
        ∨ (t.state = TransactionState.active ∧ m = TxnMethod.mRollback ∧
            (txnStep m t resp).txn.state = TransactionState.rolled_back))
  ∧ (∀ (m : TxnMethod) (t : AsyncTransaction) (resp : HttpResponse),
        t.state = TransactionState.committed ∨ t.state = TransactionState.rolled_back →
          (txnStep m t resp).txn = t) := by
  refine ⟨?_, ?_, ?_, ?_⟩
  · intro t resp h
    simp [AsyncTransaction.begin, h, TxnError.isStateError]
  · intro m t resp hm h
    cases m <;>
      simp_all [txnStep, AsyncTransaction.commit, AsyncTransaction.rollback,
        AsyncTransaction.add_statements, AsyncTransaction.delete_statements,
        AsyncTransaction.update, TxnError.isStateError]
  · intro m t resp
    cases m <;> cases hs : t.state <;>
      simp_all [txnStep, AsyncTransaction.begin, AsyncTransaction.commit,
        AsyncTransaction.rollback, AsyncTransaction.add_statements,
        AsyncTransaction.delete_statements, AsyncTransaction.update] <;>
      split_ifs <;> simp_all
  · intro m t resp h
    rcases h with h | h <;> cases m <;>
      simp_all [txnStep, AsyncTransaction.begin, AsyncTransaction.commit,
        AsyncTransaction.rollback, AsyncTransaction.add_statements,
        AsyncTransaction.delete_statements, AsyncTransaction.update]

/-- Witness for C1 at concrete inputs: a committed transaction rejects
`begin()` with a state error and is left unchanged, and `commit()` from
PENDING is rejected likewise. -/
theorem C1_transaction_state_machine_witness :
    (({ repository_id := "r", transaction_id := some ("x"), isolation_level := none,
        state := TransactionState.committed } : AsyncTransaction).begin
        { status_code := 201, location := some ("/t/1"), text := "" }).txn
      = { repository_id := "r", transaction_id := some ("x"), isolation_level := none,
          state := TransactionState.committed } ∧
    ((txnStep TxnMethod.mCommit
        { repository_id := "r", transaction_id := none, isolation_level := none,
          state := TransactionState.pending }
        { status_code := 200, location := none, text := "" }).error.any TxnError.isStateError) := by
  constructor
  · exact (C1_transaction_state_machine.1 _ _ (by decide)).1
  · exact ((C1_transaction_state_machine.2.1 TxnMethod.mCommit _ _ (by decide) (by decide))).2

/-- Claim C3: when a transaction HTTP call fails (begin: status ≠ 201 or
missing/empty Location header; commit/rollback: status ∉ {200, 204}), the
method raises a `TransactionError` and the transaction's state and id are
exactly what they were before the call. -/
theorem C3_failed_http_leaves_state_unchanged :
    (∀ (t : AsyncTransaction) (resp : HttpResponse),
        t.state = TransactionState.pending →
        resp.status_code ≠ 201 ∨ ¬ pyTruthyOptStr resp.location →
          (t.begin resp).txn = t ∧
          (t.begin resp).txn.state = TransactionState.pending ∧
          (t.begin resp).txn.transaction_id = t.transaction_id ∧
          ∃ msg, (t.begin resp).error = some (TxnError.transactionError msg))
  ∧ (∀ (t : AsyncTransaction) (resp : HttpResponse),
        t.state = TransactionState.active →
        resp.status_code ≠ 200 → resp.status_code ≠ 204 →
          (t.commit resp).txn = t ∧
          (t.commit resp).txn.state = TransactionState.active ∧
          ∃ msg, (t.commit resp).error = some (TxnError.transactionError msg))
  ∧ (∀ (t : AsyncTransaction) (resp : HttpResponse),
        t.state = TransactionState.active →
        resp.status_code ≠ 200 → resp.status_code ≠ 204 →
          (t.rollback resp).txn = t ∧
          (t.rollback resp).txn.state = TransactionState.active ∧
          ∃ msg, (t.rollback resp).error = some (TxnError.transactionError msg)) := by
  refine ⟨?_, ?_, ?_⟩
  · intro t resp hs hfail
    rcases hfail with hf | hf
    · simp [AsyncTransaction.begin, hs, hf]
    · by_cases h201 : resp.status_code = 201 <;>
        simp [AsyncTransaction.begin, hs, h201, hf]
  · intro t resp hs h200 h204
    simp [AsyncTransaction.commit, hs, h200, h204]
  · intro t resp hs h200 h204
    simp [AsyncTransaction.rollback, hs, h200, h204]

/-- Witness for C3: a begin that receives 500 leaves the fresh transaction
pending with no id and raises a `TransactionError`. -/
theorem C3_failed_http_leaves_state_unchanged_witness :
    ((AsyncTransaction.init ("r") none).begin
        { status_code := 500, location := none, text := "boom" }).txn
      = AsyncTransaction.init ("r") none ∧
    ∃ msg, ((AsyncTransaction.init ("r") none).begin
        { status_code := 500, location := none, text := "boom" }).error
      = some (TxnError.transactionError msg) := by
  have h := C3_failed_http_leaves_state_unchanged.1 (AsyncTransaction.init ("r") none)
    { status_code := 500, location := none, text := "boom" } (by decide) (Or.inl (by decide))
  exact ⟨h.1, h.2.2.2⟩

/-- Claim C4: entering the async-with scope calls `begin()`; leaving it calls
`commit()` when no exception is in flight and `rollback()` when one is; and if
the transaction already left ACTIVE inside the scope, exit performs no HTTP
call and no state change. -/
theorem C4_context_manager_protocol :
    (∀ (t : AsyncTransaction) (resp : HttpResponse), t.aenter resp = t.begin resp)
  ∧ (∀ (t : AsyncTransaction) (resp : HttpResponse),
        t.state = TransactionState.active → t.aexit false resp = t.commit resp)
  ∧ (∀ (t : AsyncTransaction) (resp : HttpResponse),
        t.state = TransactionState.active → t.aexit true resp = t.rollback resp)
  ∧ (∀ (t : AsyncTransaction) (exc : Bool) (resp : HttpResponse),
        t.state ≠ TransactionState.active →
          t.aexit exc resp = { txn := t, error := none, httpCalled := false }) := by
  refine ⟨fun t resp => rfl, ?_, ?_, ?_⟩
  · intro t resp hs
    simp [AsyncTransaction.aexit, hs]
  · intro t resp hs
    simp [AsyncTransaction.aexit, hs]
  · intro t exc resp hs
    simp [AsyncTransaction.aexit, hs]

/-- Witness for C4: exiting a scope whose transaction was already committed
performs no HTTP call, raises nothing and changes nothing. -/
theorem C4_context_manager_protocol_witness :
    ({ repository_id := "r", transaction_id := some ("1"), isolation_level := none,
       state := TransactionState.committed } : AsyncTransaction).aexit false
        { status_code := 200, location := none, text := "" }
      = { txn := { repository_id := "r", transaction_id := some ("1"), isolation_level := none,
                   state := TransactionState.committed }
          error := none
          httpCalled := false } := by
  exact C4_context_manager_protocol.2.2.2 _ false _ (by decide)

/-- Claim C10: a successful `add_statements()`, `delete_statements()` or
`update()` leaves the transaction object (state ACTIVE, id) unchanged — in
fact these methods never modify the object at all — so any sequence of
mutating operations keeps it intact and `commit()`/`rollback()` never raise a
state error afterwards. -/
theorem C10_mutating_ops_preserve_active :
    (∀ (m : TxnMethod) (t : AsyncTransaction) (resp : HttpResponse),
        m = TxnMethod.mAddStatements ∨ m = TxnMethod.mDeleteStatements ∨ m = TxnMethod.mUpdate →
          (txnStep m t resp).txn = t)
  ∧ (∀ (m : TxnMethod) (t : AsyncTransaction) (resp : HttpResponse),
        m = TxnMethod.mAddStatements ∨ m = TxnMethod.mDeleteStatements ∨ m = TxnMethod.mUpdate →
        t.state = TransactionState.active →
        resp.status_code = 200 ∨ resp.status_code = 204 →
          txnStep m t resp = { txn := t, error := none, httpCalled := true })
  ∧ (∀ (ops : List (TxnMethod × HttpResponse)) (t : AsyncTransaction),
        (∀ p ∈ ops, p.1 = TxnMethod.mAddStatements ∨ p.1 = TxnMethod.mDeleteStatements ∨
            p.1 = TxnMethod.mUpdate) →
          runTxnSeq t ops = t)
  ∧ (∀ (t : AsyncTransaction) (resp : HttpResponse),
        t.state = TransactionState.active →
          ¬ (t.commit resp).error.any TxnError.isStateError ∧
          ¬ (t.rollback resp).error.any TxnError.isStateError) := by
  have hframe : ∀ (m : TxnMethod) (t : AsyncTransaction) (resp : HttpResponse),
      m = TxnMethod.mAddStatements ∨ m = TxnMethod.mDeleteStatements ∨ m = TxnMethod.mUpdate →
        (txnStep m t resp).txn = t := by
    intro m t resp hm
    rcases hm with hm | hm | hm <;> subst hm <;>
      simp only [txnStep, AsyncTransaction.add_statements, AsyncTransaction.delete_statements,
        AsyncTransaction.update] <;>
      split_ifs <;> rfl
  refine ⟨hframe, ?_, ?_, ?_⟩
  · intro m t resp hm hs hok
    have h200 : resp.status_code ≠ 200 ∧ resp.status_code ≠ 204 → False := by
      rcases hok with h | h <;> simp [h]
    rcases hm with hm | hm | hm <;> subst hm <;>
      simp only [txnStep, AsyncTransaction.add_statements, AsyncTransaction.delete_statements,
        AsyncTransaction.update] <;>
      rw [if_neg (by simp [hs]), if_neg h200]
  · intro ops
    induction ops with
    | nil => intro t _; rfl
    | cons p rest ih =>
      intro t hall
      have h1 : (txnStep p.1 t p.2).txn = t := hframe p.1 t p.2 (hall p (by simp))
      have : runTxnSeq t (p :: rest) = runTxnSeq (txnStep p.1 t p.2).txn rest := rfl
      rw [this, h1]
      exact ih t (fun q hq => hall q (by simp [hq]))
  · intro t resp hs
    constructor <;>
      simp only [AsyncTransaction.commit, AsyncTransaction.rollback] <;>
      rw [if_neg (by simp [hs])] <;>
      split_ifs <;> simp [TxnError.isStateError]

/-- Witness for C10: an active transaction is untouched by a successful
add/update sequence and can still be committed without a state error. -/
theorem C10_mutating_ops_preserve_active_witness :
    runTxnSeq
      { repository_id := "r", transaction_id := some ("1"), isolation_level := none,
        state := TransactionState.active }
      [(TxnMethod.mAddStatements, { status_code := 204, location := none, text := "" }),
       (TxnMethod.mUpdate, { status_code := 200, location := none, text := "" }),
       (TxnMethod.mDeleteStatements, { status_code := 204, location := none, text := "" })]
      = { repository_id := "r", transaction_id := some ("1"), isolation_level := none,
          state := TransactionState.active } := by
  exact C10_mutating_ops_preserve_active.2.2.1 _ _ (by decide)

/-! ## Query type detection (`_async_repository.py`) -/

/-- Lexical state of the comment scanner `_remove_sparql_comments`:
inside a `<...>` IRI, inside a quoted string (with its quote character), or
bare. `string_char` is only meaningful while `in_string` is set, exactly as
in the source. -/
structure ScanState where
  in_uri : Bool
  in_string : Bool
  string_char : Char
deriving DecidableEq

/-- Character-by-character loop of `_remove_sparql_comments`.  `fuel` bounds
the recursion (every iteration of the Python loop advances `i` by at least
one, so `fuel = length` never runs out on a non-empty remainder); `prev` is
the character at `i - 1` in the original input, which the source consults
only for the backslash-escape check inside a string. -/
def removeCommentsAux : Nat → List Char → ScanState → Char → List Char
  | 0, _, _, _ => []
  | _ + 1, [], _, _ => []
  | fuel + 1, c :: rest, st, prev =>
    if st.in_string then
      c :: removeCommentsAux fuel rest
        { st with in_string := !(c == st.string_char && prev != '\\') } c
    else if st.in_uri then
      c :: removeCommentsAux fuel rest { st with in_uri := !(c == '>') } c
    else if c == '<' then
      c :: removeCommentsAux fuel rest { st with in_uri := true } c
    else if c == '"' || c == '\'' then
      c :: removeCommentsAux fuel rest
        { in_uri := st.in_uri, in_string := true, string_char := c } c
    else if c == '#' then
      -- skip until end of line; `prev` becomes the last skipped character
      removeCommentsAux fuel ((c :: rest).dropWhile (fun d => d != '\n')) st
        (((c :: rest).takeWhile (fun d => d != '\n')).getLastD prev)
    else
      c :: removeCommentsAux fuel rest st c

/-- `_remove_sparql_comments` on character lists: removes SPARQL comments
while preserving `#` inside IRIs and quoted strings. -/
def removeSparqlComments (query : List Char) : List Char :=
  removeCommentsAux query.length query
    { in_uri := false, in_string := false, string_char := ' ' } ' '

/-- Case-insensitive literal matcher: `keyword` is given in uppercase;
returns the remaining input on success (regex `re.IGNORECASE` literal). -/
def matchCI : List Char → List Char → Option (List Char)
  | [], l => some l
  | _ :: _, [] => none
  | k :: ks, c :: cs => if c.toUpper == k then matchCI ks cs else none

/-- Require one specific character (a literal in the regex). -/
def expectChar (c : Char) : List Char → Option (List Char)
  | [] => none
  | d :: rest => if d == c then some rest else none

/-- Regex `\s+`: at least one whitespace character, matched greedily. -/
def dropSpace1 : List Char → Option (List Char)
  | [] => none
  | c :: rest => if pyIsSpace c then some (rest.dropWhile pyIsSpace) else none

/-- Matcher for `_PREFIX_PATTERN = PREFIX\s+\w*:\s*<[^>]*>` (IGNORECASE)
anchored at the head of the input; returns the remainder after the match. -/
def matchPrefixDecl (l : List Char) : Option (List Char) := do
  let l ← matchCI ("PREFIX".data) l
  let l ← dropSpace1 l
  let l := l.dropWhile pyIsWord
  let l ← expectChar (':') l
  let l := l.dropWhile pyIsSpace
  let l ← expectChar ('<') l
  let l := l.dropWhile (fun c => c != '>')
  let l ← expectChar ('>') l
  return l

/-- Matcher for `_BASE_PATTERN = BASE\s*<[^>]*>` (IGNORECASE) anchored at the
head of the input. -/
def matchBaseDecl (l : List Char) : Option (List Char) := do
  let l ← matchCI ("BASE".data) l
  let l := l.dropWhile pyIsSpace
  let l ← expectChar ('<') l
  let l := l.dropWhile (fun c => c != '>')
  let l ← expectChar ('>') l
  return l

/-- `re.sub(pattern, "", text)`: scan left to right, at each position either
remove an anchored match and continue after it, or keep the character and move
on.  `fuel` bounds the loop; both patterns above consume at least one
character per match, so `fuel = length` never runs out. -/
def reSubAll (m : List Char → Option (List Char)) : Nat → List Char → List Char
  | 0, l => l
  | _ + 1, [] => []
  | fuel + 1, c :: rest =>
    match m (c :: rest) with
    | some rem => reSubAll m fuel rem
    | none => c :: reSubAll m fuel rest

/-- Python `str.strip()` (ASCII whitespace fragment). -/
def pyStrip (l : List Char) : List Char :=
  ((l.dropWhile pyIsSpace).reverse.dropWhile pyIsSpace).reverse

/-- The comment/PREFIX/BASE removal pipeline of `_detect_query_type`
(its first three statements, in source order). -/
def cleanedQuery (query : List Char) : List Char :=
  let cleaned := removeSparqlComments query
  let cleaned := reSubAll matchPrefixDecl cleaned.length cleaned
  reSubAll matchBaseDecl cleaned.length cleaned

/-- `_detect_query_type` on character lists: strip the cleaned text, return
`[]` if nothing is left, else the first whitespace-delimited token
upper-cased. -/
def detectQueryTypeL (query : List Char) : List Char :=
  let cleaned := pyStrip (cleanedQuery query)
  if cleaned.isEmpty then []
  else (cleaned.takeWhile (fun c => !pyIsSpace c)).map Char.toUpper

/-- `_detect_query_type` on strings. -/
def detectQueryType (query : String) : String :=
  String.mk (detectQueryTypeL query.data)

/-- Claim C2: query-type detection returns the uppercase first
whitespace-delimited token of the text after removing comments (a `#` starts
a comment only in the bare lexical state, never inside a `<...>` IRI or a
quoted string) and all PREFIX/BASE declarations, and returns the empty string
when the remainder is empty or whitespace-only; in particular it yields
SELECT for a plain SELECT query, ASK for a query preceded by a `# c` comment
line, and an IRI containing `#frag` before the keyword is not truncated. -/
theorem C2_query_type_detection :
    detectQueryType ("SELECT * WHERE \x7b ?s ?p ?o \x7d") = "SELECT"
  ∧ detectQueryType ("# c\nASK \x7b?s ?p ?o\x7d") = "ASK"
  ∧ detectQueryType ("PREFIX ex: <http://x.org/a#frag>\nSELECT * WHERE \x7b ?s ?p ?o \x7d")
      = "SELECT"
  ∧ detectQueryType ("BASE <http://x.org/a#frag> ASK \x7b ?s ?p ?o \x7d") = "ASK"
  ∧ removeSparqlComments (("<http://x.org/a#frag> SELECT").data)
      = ("<http://x.org/a#frag> SELECT").data
  ∧ removeSparqlComments (("\"a#b\" '#c' X").data) = ("\"a#b\" '#c' X").data
  ∧ removeSparqlComments (("# c\nASK").data) = ("\nASK").data
  ∧ (∀ q : String, ((cleanedQuery q.data).all pyIsSpace) = true → detectQueryType q = "")
  ∧ (∀ q : String,
      detectQueryType q
        = String.mk
            (if (pyStrip (cleanedQuery q.data)).isEmpty then []
             else ((pyStrip (cleanedQuery q.data)).takeWhile
                (fun c => !pyIsSpace c)).map Char.toUpper)) := by
  refine ⟨by decide, by decide, by decide, by decide, by decide, by decide, by decide, ?_, ?_⟩
  · intro q hq
    have h1 : (cleanedQuery q.data).dropWhile pyIsSpace = [] := by
      rw [List.dropWhile_eq_nil_iff]
      intro x hx
      exact List.all_eq_true.mp hq x hx
    simp [detectQueryType, detectQueryTypeL, pyStrip, h1]
  · intro q
    rfl

/-- Witness for C2: a whitespace-only query is detected as the empty
keyword. -/
theorem C2_query_type_detection_witness :
    detectQueryType ("   \n\t  ") = "" := by
  exact C2_query_type_detection.2.2.2.2.2.2.2.1 ("   \n\t  ") (by decide)

/-! ## Query dispatch (`AsyncRdf4JRepository.query`) -/

/-- Accept headers used by `AsyncRdf4JRepository.query` (the `Rdf4jContentType`
constants module is absent from the source tree; only the choice between the
SPARQL-results-JSON media type and the N-Triples media type matters here). -/
inductive AcceptHeader
  | sparqlResultsJson
  | ntriples
deriving DecidableEq

/-- How `AsyncRdf4JRepository.query` parses the response body: as SPARQL
JSON results (`og.parse_query_results(..., JSON)`), or as N-Triples loaded
into a temporary store and re-queried as triples. -/
inductive ResponseParsing
  | sparqlJsonResults
  | ntriplesStore
deriving DecidableEq

/-- The dispatch logic of `AsyncRdf4JRepository.query`: detect the query
type, then pick the Accept header and response parsing.  The final `else`
branch (unknown keyword) raises nothing and behaves exactly like the SELECT
branch; this totality mirrors the source, which has no error path there. -/
def queryDispatch (sparql_query : String) : AcceptHeader × ResponseParsing :=
  let query_type := detectQueryType sparql_query
  if query_type = "SELECT" then
    (AcceptHeader.sparqlResultsJson, ResponseParsing.sparqlJsonResults)
  else if query_type = "ASK" then
    (AcceptHeader.sparqlResultsJson, ResponseParsing.sparqlJsonResults)
  else if query_type = "CONSTRUCT" ∨ query_type = "DESCRIBE" then
    (AcceptHeader.ntriples, ResponseParsing.ntriplesStore)
  else
    (AcceptHeader.sparqlResultsJson, ResponseParsing.sparqlJsonResults)

/-- Claim C8: when the detected keyword is none of SELECT/ASK/CONSTRUCT/
DESCRIBE, `query()` raises no error about the unrecognized keyword: it sends
the request with the SPARQL-results-JSON Accept header and parses the
response as SELECT-style JSON results, exactly as it would for a SELECT
query. -/
theorem C8_unknown_keyword_defaults_to_select_json :
    ∀ q : String,
      detectQueryType q ≠ "SELECT" →
      detectQueryType q ≠ "ASK" →
      detectQueryType q ≠ "CONSTRUCT" →
      detectQueryType q ≠ "DESCRIBE" →
        queryDispatch q = (AcceptHeader.sparqlResultsJson, ResponseParsing.sparqlJsonResults)
        ∧ queryDispatch q = queryDispatch ("SELECT * WHERE \x7b ?s ?p ?o \x7d") := by
  intro q h1 h2 h3 h4
  constructor
  · simp [queryDispatch, h1, h2, h3, h4]
  · simp [queryDispatch, h1, h2, h3, h4]
    rw [if_pos (by decide)]

/-- Witness for C8: a SPARQL UPDATE text (keyword INSERT) is dispatched with
the SPARQL-results-JSON header and SELECT-style parsing. -/
theorem C8_unknown_keyword_defaults_to_select_json_witness :
    queryDispatch ("INSERT DATA \x7b <s> <p> <o> \x7d")
      = (AcceptHeader.sparqlResultsJson, ResponseParsing.sparqlJsonResults) := by
  exact (C8_unknown_keyword_defaults_to_select_json ("INSERT DATA \x7b <s> <p> <o> \x7d")
    (by decide) (by decide) (by decide) (by decide)).1

/-! ## Term serialization (`query/_term.py`) -/

/-- The `Term` union of `query/_term.py`: a pyoxigraph `NamedNode`,
`Variable`, `Literal` (value, optional language, optional datatype IRI) or
`BlankNode`, or a raw pass-through string. -/
inductive QueryTerm
  | namedNode (value : String)
  | var (value : String)
  | literal (value : String) (language : Option String) (datatype : Option String)
  | blankNode (value : String)
  | rawString (s : String)
deriving DecidableEq

/-- Python single-character `str.replace(old, new)` as used by the literal
escaping code. -/
def pyReplaceChar (l : List Char) (old : Char) (new : List Char) : List Char :=
  l.flatMap (fun c => if c == old then new else [c])

/-- The literal-value escaping of `serialize_term`:
`value.replace("\\", "\\\\").replace('"', '\\"')`, two sequential passes. -/
def escapeLiteral (value : List Char) : List Char :=
  pyReplaceChar (pyReplaceChar value ('\\') ['\\', '\\']) ('"') ['\\', '"']

/-- Specification-style single-pass escaping: exactly backslash and
double-quote are backslash-escaped, nothing else is touched. -/
def escapeSpec (value : List Char) : List Char :=
  value.flatMap (fun c =>
    if c = '\\' then ['\\', '\\'] else if c = '"' then ['\\', '"'] else [c])

/-- The `xsd:string` datatype IRI elided by literal serialization. -/
def xsdStringIRI : String := "http://www.w3.org/2001/XMLSchema#string"

/-- Python truth of `term.datatype and term.datatype.value != xsd:string`
(a present `NamedNode` is always truthy). -/
def datatypeNeedsSuffix : Option String → Bool
  | none => false
  | some d => !(d == xsdStringIRI)

/-- `serialize_term`: SPARQL surface syntax of a term.  The Lean inductive is
closed, so the source's trailing `TypeError` branch for foreign types has no
counterpart. -/
def serialize_term : QueryTerm → String
  | .namedNode v => "<" ++ v ++ ">"
  | .var v => "?" ++ v
  | .literal value language datatype =>
      let v := String.mk (escapeLiteral value.data)
      if pyTruthyOptStr language then
        "\"" ++ v ++ "\"@" ++ language.getD ""
      else if datatypeNeedsSuffix datatype then
        "\"" ++ v ++ "\"^^<" ++ (datatype.getD "") ++ ">"
      else
        "\"" ++ v ++ "\""
  | .blankNode v => "_:" ++ v
  | .rawString s => s

/-- Claim C5: a Literal serializes as its value in double quotes with exactly
backslash and double-quote backslash-escaped (the two sequential `replace`
passes agree with the single-pass escaping), followed by `@lang` when a
language tag is present, else `^^<datatype>` when a datatype other than
`xsd:string` is present, else nothing; `xsd:string` is elided while
`xsd:integer` keeps its suffix. -/
theorem C5_literal_serialization :
    (∀ value : List Char, escapeLiteral value = escapeSpec value)
  ∧ (∀ value lang : String, ∀ datatype : Option String, lang ≠ "" →
      serialize_term (QueryTerm.literal value (some lang) datatype)
        = "\"" ++ String.mk (escapeSpec value.data) ++ "\"@" ++ lang)
  ∧ (∀ value d : String, d ≠ xsdStringIRI →
      serialize_term (QueryTerm.literal value none (some d))
        = "\"" ++ String.mk (escapeSpec value.data) ++ "\"^^<" ++ d ++ ">")
  ∧ (∀ value : String,
      serialize_term (QueryTerm.literal value none (some xsdStringIRI))
        = "\"" ++ String.mk (escapeSpec value.data) ++ "\"")
  ∧ (∀ value : String,
      serialize_term (QueryTerm.literal value none none)
        = "\"" ++ String.mk (escapeSpec value.data) ++ "\"")
  ∧ serialize_term (QueryTerm.literal ("x") none (some xsdStringIRI)) = "\"x\""
  ∧ serialize_term
      (QueryTerm.literal ("1") none (some ("http://www.w3.org/2001/XMLSchema#integer")))
      = "\"1\"^^<http://www.w3.org/2001/XMLSchema#integer>" := by
  have hesc : ∀ value : List Char, escapeLiteral value = escapeSpec value := by
    intro value
    induction value with
    | nil => rfl
    | cons c rest ih =>
      by_cases h1 : c = '\\'
      · subst h1
        simpa [escapeLiteral, escapeSpec, pyReplaceChar] using ih
      · by_cases h2 : c = '"'
        · subst h2
          simpa [escapeLiteral, escapeSpec, pyReplaceChar] using ih
        · simpa [escapeLiteral, escapeSpec, pyReplaceChar, h1, h2] using ih
  refine ⟨hesc, ?_, ?_, ?_, ?_, by decide, by decide⟩
  · intro value lang datatype hlang
    simp [serialize_term, pyTruthyOptStr, hlang, hesc]
  · intro value d hd
    simp [serialize_term, pyTruthyOptStr, datatypeNeedsSuffix, hd, hesc]
  · intro value
    simp [serialize_term, pyTruthyOptStr, datatypeNeedsSuffix, hesc]
  · intro value
    simp [serialize_term, pyTruthyOptStr, datatypeNeedsSuffix, hesc]

/-- Witness for C5: a language-tagged literal with a backslash and a quote in
its value serializes with both escaped and the `@en` tag appended. -/
theorem C5_literal_serialization_witness :
    serialize_term (QueryTerm.literal ("a\\b\"c") (some ("en")) none)
      = "\"a\\\\b\\\"c\"@en" := by
  have h := C5_literal_serialization.2.1 ("a\\b\"c") ("en") none (by decide)
  rw [h]
  decide

/-! ## Graph pattern and query builders (`query/_pattern.py`, `query/_builder.py`)

The builders are pure string assemblers: none of their methods touches the
HTTP client, so every validation failure below happens before any network
I/O by construction.  Fluent mutating methods become functions returning the
updated value; the methods that `raise ValueError` return `Except String`.
-/

/-- `GraphPattern`: an ordered list of pre-rendered SPARQL fragments. -/
structure GraphPattern where
  _elements : List String
deriving DecidableEq

/-- `GraphPattern()` constructor: empty element list. -/
def GraphPattern.new : GraphPattern := { _elements := [] }

/-- `GraphPattern.to_sparql(indent)`: each element on its own line, prefixed
by `indent` spaces. -/
def GraphPattern.to_sparql (gp : GraphPattern) (indent : Nat) : String :=
  let pre := String.mk (List.replicate indent ' ')
  String.intercalate ("\n") (gp._elements.map (fun el => pre ++ el))

/-- The rendered triple fragment shared by `where` and `optional`. -/
def tripleFragment (s p o : QueryTerm) : String :=
  serialize_term s ++ " " ++ serialize_term p ++ " " ++ serialize_term o ++ " ."

/-- `GraphPattern.where` (named `where_` because `where` is a Lean keyword):
append a triple pattern. -/
def GraphPattern.where_ (gp : GraphPattern) (s p o : QueryTerm) : GraphPattern :=
  { _elements := gp._elements ++ [tripleFragment s p o] }

/-- `GraphPattern.filter`: append a `FILTER(expr)` clause verbatim. -/
def GraphPattern.filter (gp : GraphPattern) (expr : String) : GraphPattern :=
  { _elements := gp._elements ++ ["FILTER(" ++ expr ++ ")"] }

/-- First positional argument of `GraphPattern.optional`: either a nested
pattern or a term (the start of a triple shorthand). -/
inductive SOrPattern
  | pattern (g : GraphPattern)
  | term (t : QueryTerm)
deriving DecidableEq

/-- `GraphPattern.optional`: nested-pattern shape renders the block at indent
4; triple shape requires both `p` and `o`, else `ValueError`. -/
def GraphPattern.optional (gp : GraphPattern) (s_or_pattern : SOrPattern)
    (p o : Option QueryTerm) : Except String GraphPattern :=
  match s_or_pattern with
  | .pattern g =>
      let body := g.to_sparql 4
      Except.ok { _elements := gp._elements ++ ["OPTIONAL \x7b\n" ++ body ++ "\n  \x7d"] }
  | .term s =>
      match p, o with
      | some p, some o =>
          Except.ok { _elements :=
            gp._elements ++ ["OPTIONAL \x7b " ++ tripleFragment s p o ++ " \x7d"] }
      | _, _ =>
          Except.error
            ("optional() requires either a GraphPattern or three term arguments (s, p, o)")

/-- `GraphPattern.union`: requires at least two patterns, else `ValueError`;
renders each at indent 4 and joins with `UNION`. -/
def GraphPattern.union (gp : GraphPattern) (patterns : List GraphPattern) :
    Except String GraphPattern :=
  if patterns.length < 2 then
    Except.error ("union() requires at least two GraphPattern arguments")
  else
    let parts := patterns.map (fun pat => "\x7b\n" ++ pat.to_sparql 4 ++ "\n  \x7d")
    Except.ok { _elements := gp._elements ++ [String.intercalate (" UNION ") parts] }

/-- Normalize a variable name to carry a leading `?` (used by bind/values). -/
def normalizeVar (var : String) : String :=
  if var.startsWith ("?") then var else "?" ++ var

/-- `GraphPattern.bind`: append `BIND(expr AS ?var)`. -/
def GraphPattern.bind (gp : GraphPattern) (expr var : String) : GraphPattern :=
  { _elements := gp._elements ++ ["BIND(" ++ expr ++ " AS " ++ normalizeVar var ++ ")"] }

/-- `GraphPattern.values`: append `VALUES ?var { t1 t2 ... }`. -/
def GraphPattern.values (gp : GraphPattern) (var : String) (vals : List QueryTerm) :
    GraphPattern :=
  let serialized := String.intercalate (" ") (vals.map serialize_term)
  { _elements := gp._elements ++
      ["VALUES " ++ normalizeVar var ++ " \x7b " ++ serialized ++ " \x7d"] }

/-- `GraphPattern.__len__`. -/
def GraphPattern.length (gp : GraphPattern) : Nat := gp._elements.length

/-- Insertion-ordered dict update `self._prefixes[name] = uri`: overwrite in
place when the key exists, append otherwise. -/
def dictSet (m : List (String × String)) (k v : String) : List (String × String) :=
  if m.any (fun kv => kv.1 == k) then
    m.map (fun kv => if kv.1 == k then (k, v) else kv)
  else
    m ++ [(k, v)]

/-- `_PrefixMixin._render_prefixes`: `PREFIX k: <v>` lines. -/
def renderPrefixes (m : List (String × String)) : String :=
  String.intercalate ("\n") (m.map (fun kv => "PREFIX " ++ kv.1 ++ ": <" ++ kv.2 ++ ">"))

/-- `SelectQuery` builder state. -/
structure SelectQuery where
  _variables : List String
  _distinct : Bool
  _pattern : GraphPattern
  _prefixes : List (String × String)
  _order_by : List String
  _group_by : List String
  _having : Option String
  _limit : Option Int
  _offset : Option Int
deriving DecidableEq

/-- `SelectQuery(*variables)` constructor. -/
def SelectQuery.new (vars : List String) : SelectQuery :=
  { _variables := vars, _distinct := false, _pattern := GraphPattern.new
    _prefixes := [], _order_by := [], _group_by := [], _having := none
    _limit := none, _offset := none }

/-- `SelectQuery.build`: validate, then assemble prefixes, the SELECT line,
the WHERE block and the modifiers in the fixed source order. -/
def SelectQuery.build (q : SelectQuery) : Except String String :=
  if q._variables.isEmpty then
    Except.error ("SELECT query requires at least one variable")
  else if q._pattern.length == 0 then
    Except.error ("SELECT query requires at least one WHERE pattern")
  else
    let parts : List String :=
      (if q._prefixes.isEmpty then [] else [renderPrefixes q._prefixes])
    let keyword := if q._distinct then "SELECT DISTINCT" else "SELECT"
    let parts := parts ++ [keyword ++ " " ++ String.intercalate (" ") q._variables]
    let parts := parts ++ ["WHERE \x7b", q._pattern.to_sparql 2, "\x7d"]
    let parts := parts ++
      (if q._group_by.isEmpty then []
       else ["GROUP BY " ++ String.intercalate (" ") q._group_by])
    let parts := parts ++
      (if pyTruthyOptStr q._having then ["HAVING (" ++ q._having.getD "" ++ ")"] else [])
    let parts := parts ++
      (if q._order_by.isEmpty then []
       else ["ORDER BY " ++ String.intercalate (" ") q._order_by])
    let parts := parts ++
      (match q._limit with | some n => ["LIMIT " ++ toString n] | none => [])
    let parts := parts ++
      (match q._offset with | some n => ["OFFSET " ++ toString n] | none => [])
    Except.ok (String.intercalate ("\n") parts)

/-- `AskQuery` builder state. -/
structure AskQuery where
  _pattern : GraphPattern
  _prefixes : List (String × String)
deriving DecidableEq

/-- `AskQuery.build`: requires a non-empty WHERE pattern. -/
def AskQuery.build (q : AskQuery) : Except String String :=
  if q._pattern.length == 0 then
    Except.error ("ASK query requires at least one WHERE pattern")
  else
    let parts : List String :=
      (if q._prefixes.isEmpty then [] else [renderPrefixes q._prefixes])
    let parts := parts ++ ["ASK \x7b", q._pattern.to_sparql 2, "\x7d"]
    Except.ok (String.intercalate ("\n") parts)

/-- `ConstructQuery` builder state. -/
structure ConstructQuery where
  _templates : List (QueryTerm × QueryTerm × QueryTerm)
  _pattern : GraphPattern
  _prefixes : List (String × String)
deriving DecidableEq

/-- `ConstructQuery.build`: requires at least one template triple; the WHERE
block is emitted only when the pattern is non-empty. -/
def ConstructQuery.build (q : ConstructQuery) : Except String String :=
  if q._templates.isEmpty then
    Except.error ("CONSTRUCT query requires at least one template triple")
  else
    let parts : List String :=
      (if q._prefixes.isEmpty then [] else [renderPrefixes q._prefixes])
    let template_lines := q._templates.map
      (fun t => "  " ++ tripleFragment t.1 t.2.1 t.2.2)
    let parts := parts ++ ["CONSTRUCT \x7b"] ++ template_lines ++ ["\x7d"]
    let parts := parts ++
      (if q._pattern.length > 0 then ["WHERE \x7b", q._pattern.to_sparql 2, "\x7d"] else [])
    Except.ok (String.intercalate ("\n") parts)

/-- `DescribeQuery` builder state. -/
structure DescribeQuery where
  _resources : List QueryTerm
  _pattern : GraphPattern
  _prefixes : List (String × String)
deriving DecidableEq

/-- `DescribeQuery.build`: requires at least one resource; the WHERE block is
emitted only when the pattern is non-empty. -/
def DescribeQuery.build (q : DescribeQuery) : Except String String :=
  if q._resources.isEmpty then
    Except.error ("DESCRIBE query requires at least one resource")
  else
    let parts : List String :=
      (if q._prefixes.isEmpty then [] else [renderPrefixes q._prefixes])
    let resources_str := String.intercalate (" ") (q._resources.map serialize_term)
    let parts := parts ++ ["DESCRIBE " ++ resources_str]
    let parts := parts ++
      (if q._pattern.length > 0 then ["WHERE \x7b", q._pattern.to_sparql 2, "\x7d"] else [])
    Except.ok (String.intercalate ("\n") parts)

/-- Validation-failure recognizer on builder results. -/
def buildFailed : Except String String → Bool
  | Except.error _ => true
  | Except.ok _ => false

/-- Claim C6: every builder validation failure raises a validation error from
pure code (the builders never touch the HTTP client, so the failure precedes
any network I/O): SELECT with zero projected variables or an empty WHERE
pattern, ASK with an empty WHERE pattern, CONSTRUCT with no template triples,
DESCRIBE with no resources, `optional()` given a term subject without both
predicate and object, and `union()` given fewer than two patterns. -/
theorem C6_builder_validation_errors :
    (∀ q : SelectQuery, q._variables = [] →
      q.build = Except.error ("SELECT query requires at least one variable"))
  ∧ (∀ q : SelectQuery, q._variables ≠ [] → q._pattern._elements = [] →
      q.build = Except.error ("SELECT query requires at least one WHERE pattern"))
  ∧ (∀ q : SelectQuery, q._variables = [] ∨ q._pattern._elements = [] →
      buildFailed q.build = true)
  ∧ (∀ q : AskQuery, q._pattern._elements = [] →
      q.build = Except.error ("ASK query requires at least one WHERE pattern"))
  ∧ (∀ q : ConstructQuery, q._templates = [] →
      q.build = Except.error ("CONSTRUCT query requires at least one template triple"))
  ∧ (∀ q : DescribeQuery, q._resources = [] →
      q.build = Except.error ("DESCRIBE query requires at least one resource"))
  ∧ (∀ (gp : GraphPattern) (t : QueryTerm) (p o : Option QueryTerm),
      p = none ∨ o = none →
        gp.optional (SOrPattern.term t) p o = Except.error
          ("optional() requires either a GraphPattern or three term arguments (s, p, o)"))
  ∧ (∀ (gp : GraphPattern) (patterns : List GraphPattern), patterns.length < 2 →
      gp.union patterns = Except.error
        ("union() requires at least two GraphPattern arguments")) := by
  refine ⟨?_, ?_, ?_, ?_, ?_, ?_, ?_, ?_⟩
  · intro q h
    simp [SelectQuery.build, h]
  · intro q hv hp
    simp [SelectQuery.build, GraphPattern.length, hv, hp]
  · intro q h
    rcases h with h | h
    · simp [buildFailed, SelectQuery.build, h]
    · by_cases hv : q._variables = []
      · simp [buildFailed, SelectQuery.build, hv]
      · simp [buildFailed, SelectQuery.build, GraphPattern.length, hv, h]
  · intro q h
    simp [AskQuery.build, GraphPattern.length, h]
  · intro q h
    simp [ConstructQuery.build, h]
  · intro q h
    simp [DescribeQuery.build, h]
  · intro gp t p o h
    rcases h with h | h
    · subst h
      cases o <;> rfl
    · subst h
      cases p <;> rfl
  · intro gp patterns h
    simp [GraphPattern.union, h]

/-- Witness for C6: a variable-less SELECT builder and a one-armed union both
fail with validation errors. -/
theorem C6_builder_validation_errors_witness :
    (SelectQuery.new []).build = Except.error ("SELECT query requires at least one variable")
    ∧ GraphPattern.new.union [GraphPattern.new] = Except.error
        ("union() requires at least two GraphPattern arguments") := by
  constructor
  · exact C6_builder_validation_errors.1 (SelectQuery.new []) (by rfl)
  · exact C6_builder_validation_errors.2.2.2.2.2.2.2 GraphPattern.new [GraphPattern.new]
      (by decide)

/-! ## Query type mismatch (`exception/repo_exception.py`) -/

/-- `QueryTypeMismatchError`: attributes set by `__init__` plus the message
passed to the base `Exception`. -/
structure QueryTypeMismatchError where
  expected : String
  actual : String
  query : String
  message : String
deriving DecidableEq

/-- The truncation in `QueryTypeMismatchError.__init__`:
`query[:100] + "..." if len(query) > 100 else query`. -/
def truncateQuery (query : String) : String :=
  if query.length > 100 then String.mk (query.data.take 100) ++ "..." else query

/-- `QueryTypeMismatchError.__init__`. -/
def mkQueryTypeMismatchError (expected actual query : String) : QueryTypeMismatchError :=
  { expected := expected
    actual := actual
    query := query
    message := "Expected " ++ expected ++ " query but detected " ++ actual ++
      ". Query: " ++ truncateQuery query }

/-- Modelled from the spec: the strict-mode fine-grained query methods
(`AsyncRdf4JRepository.select` / `ask` / `construct` / `describe`, exercised
by `tests/test_fine_grained_queries.py`) are missing from the source tree;
only the exception class above and the detector are present.  Per the spec,
strict-mode dispatch detects the query's SPARQL form and raises
`QueryTypeMismatchError(expected, actual, query)` when it differs from the
form the caller declared, and proceeds otherwise. -/
def strictDispatch (expected : String) (sparql_query : String) (strict : Bool) :
    Except QueryTypeMismatchError Unit :=
  let actual := detectQueryType sparql_query
  if strict ∧ actual ≠ expected then
    Except.error (mkQueryTypeMismatchError expected actual sparql_query)
  else
    Except.ok ()

/-- Claim C7: in strict mode, dispatching a query whose detected SPARQL form
differs from the declared form raises a type-mismatch error carrying the
expected type, the actual detected type, and a truncated (100-character)
copy of the original query text in its message. -/
theorem C7_strict_mode_type_mismatch :
    ∀ expected q : String,
      detectQueryType q ≠ expected →
        strictDispatch expected q true
          = Except.error (mkQueryTypeMismatchError expected (detectQueryType q) q)
        ∧ (mkQueryTypeMismatchError expected (detectQueryType q) q).expected = expected
        ∧ (mkQueryTypeMismatchError expected (detectQueryType q) q).actual = detectQueryType q
        ∧ (mkQueryTypeMismatchError expected (detectQueryType q) q).query = q
        ∧ (mkQueryTypeMismatchError expected (detectQueryType q) q).message
            = "Expected " ++ expected ++ " query but detected " ++ detectQueryType q ++
              ". Query: " ++ truncateQuery q
        ∧ (q.length > 100 → truncateQuery q = String.mk (q.data.take 100) ++ "...")
        ∧ (¬ q.length > 100 → truncateQuery q = q) := by
  intro expected q h
  refine ⟨?_, rfl, rfl, rfl, rfl, ?_, ?_⟩
  · simp [strictDispatch, h]
  · intro hlen
    simp [truncateQuery, hlen]
  · intro hlen
    simp [truncateQuery, hlen]

/-- Witness for C7: declaring SELECT but passing an ASK query in strict mode
raises the mismatch error with the expected attributes. -/
theorem C7_strict_mode_type_mismatch_witness :
    strictDispatch ("SELECT") ("ASK \x7b ?s ?p ?o \x7d") true
      = Except.error (mkQueryTypeMismatchError ("SELECT") ("ASK") ("ASK \x7b ?s ?p ?o \x7d")) := by
  have h := C7_strict_mode_type_mismatch ("SELECT") ("ASK \x7b ?s ?p ?o \x7d") (by decide)
  have hdet : detectQueryType ("ASK \x7b ?s ?p ?o \x7d") = "ASK" := by decide
  rw [h.1, hdet]

/-! ## Deep-copy independence (`GraphPattern.copy`, `SelectQuery.copy`)

`copy()` is `copy.deepcopy(self)` in the source.  To state clone independence
— a claim about Python object aliasing — the mutable collections owned by a
pattern or builder (the pattern's element list, the builder's variable /
order-by / group-by lists and its prefix dict) live in an explicit heap of
cells addressed by index; an object holds cell indices plus its scalar
attributes (scalar attribute rebinding can never alias because `copy` always
creates a fresh object).  `deepcopy` allocates fresh cells holding copies of
the contents; a shallow copy would instead have reused the old indices. -/

/-- Heap of mutable Python collections: list cells and dict cells. -/
structure PyHeap where
  lists : List (List String)
  maps : List (List (String × String))
deriving DecidableEq

/-- Read a list cell (out-of-range reads never occur for well-formed refs). -/
def PyHeap.getList (h : PyHeap) (i : Nat) : List String := h.lists.getD i []

/-- Read a dict cell. -/
def PyHeap.getMap (h : PyHeap) (i : Nat) : List (String × String) := h.maps.getD i []

/-- In-place update of a list cell. -/
def PyHeap.setList (h : PyHeap) (i : Nat) (v : List String) : PyHeap :=
  { h with lists := h.lists.set i v }

/-- In-place update of a dict cell. -/
def PyHeap.setMap (h : PyHeap) (i : Nat) (v : List (String × String)) : PyHeap :=
  { h with maps := h.maps.set i v }

/-- A `GraphPattern` object: a reference to its `_elements` list cell. -/
structure GraphPatternRef where
  elems : Nat
deriving DecidableEq

/-- Dereference a pattern object to its value. -/
def GraphPatternRef.read (g : GraphPatternRef) (h : PyHeap) : GraphPattern :=
  { _elements := h.getList g.elems }

/-- Rendered output of a pattern object (its `to_sparql()` text). -/
def GraphPatternRef.render (g : GraphPatternRef) (h : PyHeap) : String :=
  (g.read h).to_sparql 2

/-- `GraphPattern.copy()`: `copy.deepcopy` allocates a fresh element-list
cell holding a copy of the contents. -/
def GraphPatternRef.deepcopy (g : GraphPatternRef) (h : PyHeap) :
    PyHeap × GraphPatternRef :=
  ({ h with lists := h.lists ++ [h.getList g.elems] }, { elems := h.lists.length })

/-- Element-adding mutations of a `GraphPattern` (the in-place fluent
methods). -/
inductive PatternMut
  | pWhere (s p o : QueryTerm)
  | pFilter (expr : String)
  | pBind (expr var : String)
  | pValues (var : String) (vals : List QueryTerm)
deriving DecidableEq

/-- Apply one pattern mutation: read the cell, run the pure method, write the
cell back.  The object's reference is untouched. -/
def applyPatternMut (h : PyHeap) (g : GraphPatternRef) : PatternMut → PyHeap
  | .pWhere s p o => h.setList g.elems ((GraphPattern.where_ (g.read h) s p o)._elements)
  | .pFilter e => h.setList g.elems ((GraphPattern.filter (g.read h) e)._elements)
  | .pBind e v => h.setList g.elems ((GraphPattern.bind (g.read h) e v)._elements)
  | .pValues v vs => h.setList g.elems ((GraphPattern.values (g.read h) v vs)._elements)

/-- Apply a sequence of pattern mutations. -/
def applyPatternMuts (h : PyHeap) (g : GraphPatternRef) : List PatternMut → PyHeap
  | [] => h
  | m :: ms => applyPatternMuts (applyPatternMut h g m) g ms

/-- A `SelectQuery` object: references to its five mutable collections plus
its scalar attributes. -/
structure SelectQueryRef where
  variablesRef : Nat
  patternRef : Nat
  orderByRef : Nat
  groupByRef : Nat
  prefixesRef : Nat
  distinct : Bool
  having : Option String
  limit : Option Int
  offset : Option Int
deriving DecidableEq

/-- Dereference a builder object to its value. -/
def SelectQueryRef.read (b : SelectQueryRef) (h : PyHeap) : SelectQuery :=
  { _variables := h.getList b.variablesRef
    _distinct := b.distinct
    _pattern := { _elements := h.getList b.patternRef }
    _prefixes := h.getMap b.prefixesRef
    _order_by := h.getList b.orderByRef
    _group_by := h.getList b.groupByRef
    _having := b.having
    _limit := b.limit
    _offset := b.offset }

/-- Rendered output of a builder object (its `build()` result). -/
def SelectQueryRef.render (b : SelectQueryRef) (h : PyHeap) : Except String String :=
  (b.read h).build

/-- `SelectQuery.copy()`: `copy.deepcopy` allocates fresh cells for all five
mutable collections, copying their contents; scalars are copied by value. -/
def SelectQueryRef.deepcopy (b : SelectQueryRef) (h : PyHeap) :
    PyHeap × SelectQueryRef :=
  ({ lists := h.lists ++ [h.getList b.variablesRef, h.getList b.patternRef,
       h.getList b.orderByRef, h.getList b.groupByRef]
     maps := h.maps ++ [h.getMap b.prefixesRef] },
   { variablesRef := h.lists.length
     patternRef := h.lists.length + 1
     orderByRef := h.lists.length + 2
     groupByRef := h.lists.length + 3
     prefixesRef := h.maps.length
     distinct := b.distinct
     having := b.having
     limit := b.limit
     offset := b.offset })

/-- Mutations of a `SelectQuery` builder: WHERE-clause delegation, prefix
registration, and the modifier setters. -/
inductive BuilderMut
  | bWhere (s p o : QueryTerm)
  | bFilter (expr : String)
  | bBind (expr var : String)
  | bValues (var : String) (vals : List QueryTerm)
  | bPrefixAdd (name uri : String)
  | bOrderBy (exprs : List String)
  | bGroupBy (exprs : List String)
  | bHaving (expr : String)
  | bLimit (n : Int)
  | bOffset (n : Int)
  | bDistinct
deriving DecidableEq

/-- Apply one builder mutation.  Collection methods update heap cells in
place; modifier setters rebind attributes of the object itself. -/
def applyBuilderMut (h : PyHeap) (b : SelectQueryRef) :
    BuilderMut → PyHeap × SelectQueryRef
  | .bWhere s p o =>
      (h.setList b.patternRef
        ((GraphPattern.where_ { _elements := h.getList b.patternRef } s p o)._elements), b)
  | .bFilter e =>
      (h.setList b.patternRef
        ((GraphPattern.filter { _elements := h.getList b.patternRef } e)._elements), b)
  | .bBind e v =>
      (h.setList b.patternRef
        ((GraphPattern.bind { _elements := h.getList b.patternRef } e v)._elements), b)
  | .bValues v vs =>
      (h.setList b.patternRef
        ((GraphPattern.values { _elements := h.getList b.patternRef } v vs)._elements), b)
  | .bPrefixAdd k u =>
      (h.setMap b.prefixesRef (dictSet (h.getMap b.prefixesRef) k u), b)
  | .bOrderBy es => (h.setList b.orderByRef (h.getList b.orderByRef ++ es), b)
  | .bGroupBy es => (h.setList b.groupByRef (h.getList b.groupByRef ++ es), b)
  | .bHaving e => (h, { b with having := some e })
  | .bLimit n => (h, { b with limit := some n })
  | .bOffset n => (h, { b with offset := some n })
  | .bDistinct => (h, { b with distinct := true })

/-- Apply a sequence of builder mutations, threading object and heap. -/
def applyBuilderMuts (h : PyHeap) (b : SelectQueryRef) :
    List BuilderMut → PyHeap × SelectQueryRef
  | [] => (h, b)
  | m :: ms =>
      applyBuilderMuts (applyBuilderMut h b m).1 (applyBuilderMut h b m).2 ms

/-- Well-formed builder object: all cell references are allocated. -/
def SelectQueryRef.wf (b : SelectQueryRef) (h : PyHeap) : Prop :=
  b.variablesRef < h.lists.length ∧ b.patternRef < h.lists.length ∧
  b.orderByRef < h.lists.length ∧ b.groupByRef < h.lists.length ∧
  b.prefixesRef < h.maps.length

/-- Updating one cell leaves every other cell unchanged. -/
theorem getD_set_ne {α : Type} (l : List α) (i j : Nat) (v d : α) (hij : i ≠ j) :
    (l.set i v).getD j d = l.getD j d := by
  simp [List.getD_eq_getElem?_getD, List.getElem?_set_ne hij]

/-- Allocation at the end of the heap leaves existing cells unchanged. -/
theorem getD_append_lt {α : Type} (l l2 : List α) (i : Nat) (d : α) (h : i < l.length) :
    (l ++ l2).getD i d = l.getD i d := by
  simp [List.getD_eq_getElem?_getD, List.getElem?_append, h]

/-- Reading the k-th freshly allocated cell. -/
theorem getD_append_add {α : Type} (l l2 : List α) (k : Nat) (d : α) :
    (l ++ l2).getD (l.length + k) d = l2.getD k d := by
  rw [List.getD_eq_getElem?_getD, List.getD_eq_getElem?_getD, List.getElem?_append]
  rw [if_neg (by omega)]
  have hk : l.length + k - l.length = k := by omega
  rw [hk]

/-- A pattern mutation writes only the pattern's own cell. -/
theorem applyPatternMut_getList_ne (h : PyHeap) (g : GraphPatternRef) (m : PatternMut)
    (j : Nat) (hj : j ≠ g.elems) :
    (applyPatternMut h g m).getList j = h.getList j := by
  cases m <;>
    simp only [applyPatternMut, PyHeap.setList, PyHeap.getList] <;>
    exact getD_set_ne _ _ _ _ _ (Ne.symm hj)

/-- A sequence of pattern mutations writes only the pattern's own cell. -/
theorem applyPatternMuts_getList_ne (ms : List PatternMut) :
    ∀ (h : PyHeap) (g : GraphPatternRef) (j : Nat), j ≠ g.elems →
      (applyPatternMuts h g ms).getList j = h.getList j := by
  induction ms with
  | nil => intro h g j _; rfl
  | cons m rest ih =>
    intro h g j hj
    calc (applyPatternMuts (applyPatternMut h g m) g rest).getList j
        = (applyPatternMut h g m).getList j := ih _ g j hj
      _ = h.getList j := applyPatternMut_getList_ne h g m j hj

/-- A builder mutation never changes the object's cell references. -/
theorem applyBuilderMut_refs (h : PyHeap) (b : SelectQueryRef) (m : BuilderMut) :
    (applyBuilderMut h b m).2.variablesRef = b.variablesRef ∧
    (applyBuilderMut h b m).2.patternRef = b.patternRef ∧
    (applyBuilderMut h b m).2.orderByRef = b.orderByRef ∧
    (applyBuilderMut h b m).2.groupByRef = b.groupByRef ∧
    (applyBuilderMut h b m).2.prefixesRef = b.prefixesRef := by
  cases m <;> exact ⟨rfl, rfl, rfl, rfl, rfl⟩

/-- A builder mutation writes only the builder's own list cells. -/
theorem applyBuilderMut_getList_ne (h : PyHeap) (b : SelectQueryRef) (m : BuilderMut)
    (j : Nat) (h1 : j ≠ b.patternRef) (h2 : j ≠ b.orderByRef) (h3 : j ≠ b.groupByRef) :
    (applyBuilderMut h b m).1.getList j = h.getList j := by
  cases m <;>
    simp only [applyBuilderMut, PyHeap.setList, PyHeap.setMap, PyHeap.getList] <;>
    first
      | rfl
      | exact getD_set_ne _ _ _ _ _ (Ne.symm h1)
      | exact getD_set_ne _ _ _ _ _ (Ne.symm h2)
      | exact getD_set_ne _ _ _ _ _ (Ne.symm h3)

/-- A builder mutation writes only the builder's own dict cell. -/
theorem applyBuilderMut_getMap_ne (h : PyHeap) (b : SelectQueryRef) (m : BuilderMut)
    (j : Nat) (h5 : j ≠ b.prefixesRef) :
    (applyBuilderMut h b m).1.getMap j = h.getMap j := by
  cases m <;>
    simp only [applyBuilderMut, PyHeap.setList, PyHeap.setMap, PyHeap.getMap] <;>
    first
      | rfl
      | exact getD_set_ne _ _ _ _ _ (Ne.symm h5)

/-- A sequence of builder mutations writes only the builder's list cells. -/
theorem applyBuilderMuts_getList_ne (ms : List BuilderMut) :
    ∀ (h : PyHeap) (b : SelectQueryRef) (j : Nat),
      j ≠ b.patternRef → j ≠ b.orderByRef → j ≠ b.groupByRef →
        (applyBuilderMuts h b ms).1.getList j = h.getList j := by
  induction ms with
  | nil => intro h b j _ _ _; rfl
  | cons m rest ih =>
    intro h b j h1 h2 h3
    have hr := applyBuilderMut_refs h b m
    calc (applyBuilderMuts (applyBuilderMut h b m).1 (applyBuilderMut h b m).2 rest).1.getList j
        = (applyBuilderMut h b m).1.getList j := by
          refine ih _ _ j ?_ ?_ ?_
          · rw [hr.2.1]; exact h1
          · rw [hr.2.2.1]; exact h2
          · rw [hr.2.2.2.1]; exact h3
      _ = h.getList j := applyBuilderMut_getList_ne h b m j h1 h2 h3

/-- A sequence of builder mutations writes only the builder's dict cell. -/
theorem applyBuilderMuts_getMap_ne (ms : List BuilderMut) :
    ∀ (h : PyHeap) (b : SelectQueryRef) (j : Nat), j ≠ b.prefixesRef →
      (applyBuilderMuts h b ms).1.getMap j = h.getMap j := by
  induction ms with
  | nil => intro h b j _; rfl
  | cons m rest ih =>
    intro h b j h5
    have hr := applyBuilderMut_refs h b m
    calc (applyBuilderMuts (applyBuilderMut h b m).1 (applyBuilderMut h b m).2 rest).1.getMap j
        = (applyBuilderMut h b m).1.getMap j := by
          refine ih _ _ j ?_
          rw [hr.2.2.2.2]; exact h5
      _ = h.getMap j := applyBuilderMut_getMap_ne h b m j h5

/-- A builder's dereferenced value depends only on its own cells. -/
theorem SelectQueryRef.read_congr (b : SelectQueryRef) (h1 h2 : PyHeap)
    (hv : h1.getList b.variablesRef = h2.getList b.variablesRef)
    (hp : h1.getList b.patternRef = h2.getList b.patternRef)
    (ho : h1.getList b.orderByRef = h2.getList b.orderByRef)
    (hg : h1.getList b.groupByRef = h2.getList b.groupByRef)
    (hm : h1.getMap b.prefixesRef = h2.getMap b.prefixesRef) :
    b.read h1 = b.read h2 := by
  simp [SelectQueryRef.read, hv, hp, ho, hg, hm]

/-- Reading the single freshly allocated cell. -/
theorem getD_concat_len {α : Type} (l : List α) (x : α) (d : α) :
    (l ++ [x]).getD l.length d = x := by
  rw [List.getD_eq_getElem?_getD, List.getElem?_concat_length]
  rfl


/-- Claim C9: `copy()` on a `GraphPattern` or a `SelectQuery` builder is a
fully independent deep clone: the clone initially dereferences to the same
value, shares no mutable cell with the original, and any sequence of
mutations of the clone leaves the original's rendered output unchanged and
vice versa. -/
theorem C9_copy_independence :
    (∀ (h : PyHeap) (g : GraphPatternRef), g.elems < h.lists.length →
      ∀ (h1 : PyHeap) (c : GraphPatternRef), g.deepcopy h = (h1, c) →
        c.read h1 = g.read h
        ∧ c.elems ≠ g.elems
        ∧ (∀ ms : List PatternMut, g.render (applyPatternMuts h1 c ms) = g.render h)
        ∧ (∀ ms : List PatternMut, c.render (applyPatternMuts h1 g ms) = c.render h1))
  ∧ (∀ (h : PyHeap) (b : SelectQueryRef), b.wf h →
      ∀ (h1 : PyHeap) (c : SelectQueryRef), b.deepcopy h = (h1, c) →
        c.read h1 = b.read h
        ∧ (c.variablesRef ≠ b.variablesRef ∧ c.variablesRef ≠ b.patternRef ∧
           c.variablesRef ≠ b.orderByRef ∧ c.variablesRef ≠ b.groupByRef ∧
           c.patternRef ≠ b.variablesRef ∧ c.patternRef ≠ b.patternRef ∧
           c.patternRef ≠ b.orderByRef ∧ c.patternRef ≠ b.groupByRef ∧
           c.orderByRef ≠ b.variablesRef ∧ c.orderByRef ≠ b.patternRef ∧
           c.orderByRef ≠ b.orderByRef ∧ c.orderByRef ≠ b.groupByRef ∧
           c.groupByRef ≠ b.variablesRef ∧ c.groupByRef ≠ b.patternRef ∧
           c.groupByRef ≠ b.orderByRef ∧ c.groupByRef ≠ b.groupByRef ∧
           c.prefixesRef ≠ b.prefixesRef)
        ∧ (∀ ms : List BuilderMut, b.render (applyBuilderMuts h1 c ms).1 = b.render h)
        ∧ (∀ ms : List BuilderMut, c.render (applyBuilderMuts h1 b ms).1 = c.render h1)) := by
  constructor
  · intro h g hg h1 c hcopy
    simp only [GraphPatternRef.deepcopy, Prod.mk.injEq] at hcopy
    obtain ⟨hh1, hcc⟩ := hcopy
    have hce : c.elems = h.lists.length := by rw [← hcc]
    have ha : ∀ j, j < h.lists.length → h1.getList j = h.getList j := by
      intro j hj
      rw [← hh1]
      show (h.lists ++ _).getD j [] = h.lists.getD j []
      exact getD_append_lt _ _ _ _ hj
    have hnew : h1.getList c.elems = h.getList g.elems := by
      rw [hce, ← hh1]
      show (h.lists ++ [h.getList g.elems]).getD h.lists.length [] = h.getList g.elems
      exact getD_concat_len _ _ _
    refine ⟨?_, ?_, ?_, ?_⟩
    · unfold GraphPatternRef.read
      rw [hnew]
    · rw [hce]
      exact Ne.symm (Nat.ne_of_lt hg)
    · intro ms
      have hfr := applyPatternMuts_getList_ne ms h1 c g.elems
        (by rw [hce]; exact Nat.ne_of_lt hg)
      unfold GraphPatternRef.render GraphPatternRef.read
      rw [hfr, ha _ hg]
    · intro ms
      have hfr := applyPatternMuts_getList_ne ms h1 g c.elems
        (by rw [hce]; exact Ne.symm (Nat.ne_of_lt hg))
      unfold GraphPatternRef.render GraphPatternRef.read
      rw [hfr]
  · intro h b hwf h1 c hcopy
    obtain ⟨hv, hp, ho, hgb, hpre⟩ := hwf
    simp only [SelectQueryRef.deepcopy, Prod.mk.injEq] at hcopy
    obtain ⟨hh1, hcc⟩ := hcopy
    have hcv : c.variablesRef = h.lists.length := by rw [← hcc]
    have hcp : c.patternRef = h.lists.length + 1 := by rw [← hcc]
    have hco : c.orderByRef = h.lists.length + 2 := by rw [← hcc]
    have hcg : c.groupByRef = h.lists.length + 3 := by rw [← hcc]
    have hcpre : c.prefixesRef = h.maps.length := by rw [← hcc]
    have hcd : c.distinct = b.distinct := by rw [← hcc]
    have hch : c.having = b.having := by rw [← hcc]
    have hcl : c.limit = b.limit := by rw [← hcc]
    have hcof : c.offset = b.offset := by rw [← hcc]
    have ha : ∀ j, j < h.lists.length → h1.getList j = h.getList j := by
      intro j hj
      rw [← hh1]
      show (h.lists ++ _).getD j [] = h.lists.getD j []
      exact getD_append_lt _ _ _ _ hj
    have ham : ∀ j, j < h.maps.length → h1.getMap j = h.getMap j := by
      intro j hj
      rw [← hh1]
      show (h.maps ++ _).getD j [] = h.maps.getD j []
      exact getD_append_lt _ _ _ _ hj
    have he0 : h1.getList c.variablesRef = h.getList b.variablesRef := by
      rw [hcv, ← hh1]
      show (h.lists ++ [_, _, _, _]).getD h.lists.length [] = _
      have h0 := getD_append_add h.lists [h.getList b.variablesRef, h.getList b.patternRef,
        h.getList b.orderByRef, h.getList b.groupByRef] 0 ([] : List String)
      rw [Nat.add_zero] at h0
      exact h0
    have he1 : h1.getList c.patternRef = h.getList b.patternRef := by
      rw [hcp, ← hh1]
      show (h.lists ++ [_, _, _, _]).getD (h.lists.length + 1) [] = _
      exact getD_append_add h.lists [h.getList b.variablesRef, h.getList b.patternRef,
        h.getList b.orderByRef, h.getList b.groupByRef] 1 ([] : List String)
    have he2 : h1.getList c.orderByRef = h.getList b.orderByRef := by
      rw [hco, ← hh1]
      show (h.lists ++ [_, _, _, _]).getD (h.lists.length + 2) [] = _
      exact getD_append_add h.lists [h.getList b.variablesRef, h.getList b.patternRef,
        h.getList b.orderByRef, h.getList b.groupByRef] 2 ([] : List String)
    have he3 : h1.getList c.groupByRef = h.getList b.groupByRef := by
      rw [hcg, ← hh1]
      show (h.lists ++ [_, _, _, _]).getD (h.lists.length + 3) [] = _
      exact getD_append_add h.lists [h.getList b.variablesRef, h.getList b.patternRef,
        h.getList b.orderByRef, h.getList b.groupByRef] 3 ([] : List String)
    have hem : h1.getMap c.prefixesRef = h.getMap b.prefixesRef := by
      rw [hcpre, ← hh1]
      show (h.maps ++ [_]).getD h.maps.length [] = _
      exact getD_concat_len _ _ _
    refine ⟨?_, ?_, ?_, ?_⟩
    · unfold SelectQueryRef.read
      rw [he0, he1, he2, he3, hem, hcd, hch, hcl, hcof]
    · rw [hcv, hcp, hco, hcg, hcpre]
      omega
    · intro ms
      have f1 := applyBuilderMuts_getList_ne ms h1 c b.variablesRef
        (by rw [hcp]; omega) (by rw [hco]; omega) (by rw [hcg]; omega)
      have f2 := applyBuilderMuts_getList_ne ms h1 c b.patternRef
        (by rw [hcp]; omega) (by rw [hco]; omega) (by rw [hcg]; omega)
      have f3 := applyBuilderMuts_getList_ne ms h1 c b.orderByRef
        (by rw [hcp]; omega) (by rw [hco]; omega) (by rw [hcg]; omega)
      have f4 := applyBuilderMuts_getList_ne ms h1 c b.groupByRef
        (by rw [hcp]; omega) (by rw [hco]; omega) (by rw [hcg]; omega)
      have fm := applyBuilderMuts_getMap_ne ms h1 c b.prefixesRef
        (by rw [hcpre]; omega)
      have hread := SelectQueryRef.read_congr b (applyBuilderMuts h1 c ms).1 h
        (f1.trans (ha _ hv)) (f2.trans (ha _ hp)) (f3.trans (ha _ ho))
        (f4.trans (ha _ hgb)) (fm.trans (ham _ hpre))
      unfold SelectQueryRef.render
      rw [hread]
    · intro ms
      have g1 := applyBuilderMuts_getList_ne ms h1 b c.variablesRef
        (by rw [hcv]; omega) (by rw [hcv]; omega) (by rw [hcv]; omega)
      have g2 := applyBuilderMuts_getList_ne ms h1 b c.patternRef
        (by rw [hcp]; omega) (by rw [hcp]; omega) (by rw [hcp]; omega)
      have g3 := applyBuilderMuts_getList_ne ms h1 b c.orderByRef
        (by rw [hco]; omega) (by rw [hco]; omega) (by rw [hco]; omega)
      have g4 := applyBuilderMuts_getList_ne ms h1 b c.groupByRef
        (by rw [hcg]; omega) (by rw [hcg]; omega) (by rw [hcg]; omega)
      have gm := applyBuilderMuts_getMap_ne ms h1 b c.prefixesRef
        (by rw [hcpre]; omega)
      have hread := SelectQueryRef.read_congr c (applyBuilderMuts h1 b ms).1 h1
        g1 g2 g3 g4 gm
      unfold SelectQueryRef.render
      rw [hread]

/-- Witness for C9 at a concrete heap: filtering a deep-copied pattern and
adding a prefix plus a triple to a deep-copied SELECT builder leave the
originals' rendered output untouched. -/
theorem C9_copy_independence_witness :
    GraphPatternRef.render { elems := 0 }
      (applyPatternMuts
        { lists := [["?s ?p ?o ."], ["?s ?p ?o ."]], maps := [] }
        { elems := 1 }
        [PatternMut.pFilter ("?x > 1")])
      = GraphPatternRef.render { elems := 0 } { lists := [["?s ?p ?o ."]], maps := [] }
    ∧ SelectQueryRef.render
        { variablesRef := 0, patternRef := 1, orderByRef := 2, groupByRef := 3,
          prefixesRef := 0, distinct := false, having := none, limit := none,
          offset := none }
        (applyBuilderMuts
          { lists := [["?x"], ["?x <p> ?y ."], [], [], ["?x"], ["?x <p> ?y ."], [], []],
            maps := [[], []] }
          { variablesRef := 4, patternRef := 5, orderByRef := 6, groupByRef := 7,
            prefixesRef := 1, distinct := false, having := none, limit := none,
            offset := none }
          [BuilderMut.bPrefixAdd ("ex") ("http://example.org/"),
           BuilderMut.bFilter ("?y > 2")]).1
      = SelectQueryRef.render
          { variablesRef := 0, patternRef := 1, orderByRef := 2, groupByRef := 3,
            prefixesRef := 0, distinct := false, having := none, limit := none,
            offset := none }
          { lists := [["?x"], ["?x <p> ?y ."], [], []], maps := [[]] } := by
  constructor
  · exact (C9_copy_independence.1 { lists := [["?s ?p ?o ."]], maps := [] }
      { elems := 0 } (by decide)
      { lists := [["?s ?p ?o ."], ["?s ?p ?o ."]], maps := [] }
      { elems := 1 } (by rfl)).2.2.1 [PatternMut.pFilter ("?x > 1")]
  · exact (C9_copy_independence.2 { lists := [["?x"], ["?x <p> ?y ."], [], []], maps := [[]] }
      { variablesRef := 0, patternRef := 1, orderByRef := 2, groupByRef := 3,
        prefixesRef := 0, distinct := false, having := none, limit := none,
        offset := none }
      (by refine ⟨?_, ?_, ?_, ?_, ?_⟩ <;> decide)
      { lists := [["?x"], ["?x <p> ?y ."], [], [], ["?x"], ["?x <p> ?y ."], [], []],
        maps := [[], []] }
      { variablesRef := 4, patternRef := 5, orderByRef := 6, groupByRef := 7,
        prefixesRef := 1, distinct := false, having := none, limit := none,
        offset := none }
      (by rfl)).2.2.1
      [BuilderMut.bPrefixAdd ("ex") ("http://example.org/"),
       BuilderMut.bFilter ("?y > 2")]
